import Mathlib

/-!
Shallow embedding of the `mlarena` SDK (files `src/mlarena/__init__.py`,
`src/mlarena/client.py`, `src/mlarena/exceptions.py`) and proofs about it.

Modelling conventions:
* JSON values are the inductive `MLArena.Json`; JSON numbers are modelled as
  integers (no claim involves fractional numbers).  Python dictionaries are
  association lists whose keys are themselves JSON values, as produced by
  `dict(zip(columns, row))`; keys are assumed distinct, as in every response
  the claims mention.
* Python exceptions become the `Except MLArena.MLError` monad.  The SDK's own
  exception classes are the first three constructors; `httpError` stands for
  `requests.HTTPError` raised by `resp.raise_for_status()`, and `pyError`
  stands for any other Python-level exception (e.g. `AttributeError` when
  `.get` is called on a non-dict body, or an `inspect.getsource` failure).
* The network, the filesystem and `inspect.getsource` are an explicit oracle
  (`MLArena.World`); each operation also returns the list of observable
  side effects (`MLArena.Event`) it performed, in order, so that claims such
  as "no network request is issued" or "every opened handle is closed" are
  statements about the event trace.
-/

namespace MLArena

/-- JSON values as decoded by `resp.json()`.  Numbers are integers. -/
inductive Json where
  | null
  | bool (b : Bool)
  | num (n : Int)
  | str (s : String)
  | arr (xs : List Json)
  | obj (kvs : List (Json × Json))
  deriving Repr

mutual

/-- Decidable equality on `Json` (the nested inductive defeats `deriving`). -/
def Json.decEq : (a b : Json) → Decidable (a = b)
  | .null, .null => .isTrue rfl
  | .null, .bool _ => .isFalse (fun h => by cases h)
  | .null, .num _ => .isFalse (fun h => by cases h)
  | .null, .str _ => .isFalse (fun h => by cases h)
  | .null, .arr _ => .isFalse (fun h => by cases h)
  | .null, .obj _ => .isFalse (fun h => by cases h)
  | .bool _, .null => .isFalse (fun h => by cases h)
  | .bool x, .bool y =>
      if h : x = y then .isTrue (by rw [h]) else .isFalse (fun he => by cases he; exact h rfl)
  | .bool _, .num _ => .isFalse (fun h => by cases h)
  | .bool _, .str _ => .isFalse (fun h => by cases h)
  | .bool _, .arr _ => .isFalse (fun h => by cases h)
  | .bool _, .obj _ => .isFalse (fun h => by cases h)
  | .num _, .null => .isFalse (fun h => by cases h)
  | .num _, .bool _ => .isFalse (fun h => by cases h)
  | .num x, .num y =>
      if h : x = y then .isTrue (by rw [h]) else .isFalse (fun he => by cases he; exact h rfl)
  | .num _, .str _ => .isFalse (fun h => by cases h)
  | .num _, .arr _ => .isFalse (fun h => by cases h)
  | .num _, .obj _ => .isFalse (fun h => by cases h)
  | .str _, .null => .isFalse (fun h => by cases h)
  | .str _, .bool _ => .isFalse (fun h => by cases h)
  | .str _, .num _ => .isFalse (fun h => by cases h)
  | .str x, .str y =>
      if h : x = y then .isTrue (by rw [h]) else .isFalse (fun he => by cases he; exact h rfl)
  | .str _, .arr _ => .isFalse (fun h => by cases h)
  | .str _, .obj _ => .isFalse (fun h => by cases h)
  | .arr _, .null => .isFalse (fun h => by cases h)
  | .arr _, .bool _ => .isFalse (fun h => by cases h)
  | .arr _, .num _ => .isFalse (fun h => by cases h)
  | .arr _, .str _ => .isFalse (fun h => by cases h)
  | .arr xs, .arr ys =>
      match Json.decEqList xs ys with
      | .isTrue h => .isTrue (by rw [h])
      | .isFalse h => .isFalse (fun he => by cases he; exact h rfl)
  | .arr _, .obj _ => .isFalse (fun h => by cases h)
  | .obj _, .null => .isFalse (fun h => by cases h)
  | .obj _, .bool _ => .isFalse (fun h => by cases h)
  | .obj _, .num _ => .isFalse (fun h => by cases h)
  | .obj _, .str _ => .isFalse (fun h => by cases h)
  | .obj _, .arr _ => .isFalse (fun h => by cases h)
  | .obj kvs, .obj lvs =>
      match Json.decEqPairs kvs lvs with
      | .isTrue h => .isTrue (by rw [h])
      | .isFalse h => .isFalse (fun he => by cases he; exact h rfl)

/-- Decidable equality on lists of `Json`. -/
def Json.decEqList : (xs ys : List Json) → Decidable (xs = ys)
  | [], [] => .isTrue rfl
  | [], _ :: _ => .isFalse (fun h => by cases h)
  | _ :: _, [] => .isFalse (fun h => by cases h)
  | x :: xs, y :: ys =>
      match Json.decEq x y, Json.decEqList xs ys with
      | .isTrue h1, .isTrue h2 => .isTrue (by rw [h1, h2])
      | .isFalse h1, _ => .isFalse (fun he => by cases he; exact h1 rfl)
      | _, .isFalse h2 => .isFalse (fun he => by cases he; exact h2 rfl)

/-- Decidable equality on association lists of `Json`. -/
def Json.decEqPairs : (xs ys : List (Json × Json)) → Decidable (xs = ys)
  | [], [] => .isTrue rfl
  | [], _ :: _ => .isFalse (fun h => by cases h)
  | _ :: _, [] => .isFalse (fun h => by cases h)
  | (k1, v1) :: xs, (k2, v2) :: ys =>
      match Json.decEq k1 k2, Json.decEq v1 v2, Json.decEqPairs xs ys with
      | .isTrue h1, .isTrue h2, .isTrue h3 => .isTrue (by rw [h1, h2, h3])
      | .isFalse h1, _, _ => .isFalse (fun he => by cases he; exact h1 rfl)
      | _, .isFalse h2, _ => .isFalse (fun he => by cases he; exact h2 rfl)
      | _, _, .isFalse h3 => .isFalse (fun he => by cases he; exact h3 rfl)

end

instance : DecidableEq Json := Json.decEq

/-- The exception taxonomy: the three SDK classes from
`src/mlarena/exceptions.py`, plus `requests.HTTPError`
(from `resp.raise_for_status()`) and a catch-all for other
Python-level exceptions. -/
inductive MLError where
  | authenticationError (msg : Json)
  | submissionError (msg : String)
  | competitionNotFoundError (msg : Json)
  | httpError (code : Nat)
  | pyError (msg : String)
  deriving Repr, DecidableEq

/-- An HTTP response as seen by the client: `resp.status_code`,
`resp.json()` (assumed to decode) and `resp.text`. -/
structure Response where
  status_code : Nat
  body : Json
  text : String
  deriving Repr, DecidableEq

/-- A single quote character, used by Python `repr`. -/
def sq : String := String.singleton (Char.ofNat 39)

mutual

/-- Python `repr` of a JSON-decoded value (element form used inside
containers).  String escaping is not modelled. -/
def Json.pyRepr : Json → String
  | .null => "None"
  | .bool b => if b then "True" else "False"
  | .num n => toString n
  | .str s => sq ++ s ++ sq
  | .arr xs => "[" ++ String.intercalate ", " (pyReprList xs) ++ "]"
  | .obj kvs => "\x7b" ++ String.intercalate ", " (pyReprPairs kvs) ++ "\x7d"

/-- Python `repr` of each element of a Python list. -/
def pyReprList : List Json → List String
  | [] => []
  | x :: xs => x.pyRepr :: pyReprList xs

/-- Python `repr` of each `key: value` entry of a Python dict. -/
def pyReprPairs : List (Json × Json) → List String
  | [] => []
  | kv :: rest => (kv.1.pyRepr ++ ": " ++ kv.2.pyRepr) :: pyReprPairs rest

end

/-- Python `str()` of a JSON-decoded value, as used by f-string
interpolation: a string interpolates verbatim, everything else as its
`repr`. -/
def Json.pyStr : Json → String
  | .str s => s
  | j => j.pyRepr

/-- Python truthiness of a JSON-decoded value. -/
def Json.truthy : Json → Bool
  | .null => false
  | .bool b => b
  | .num n => n != 0
  | .str s => s != ""
  | .arr xs => !xs.isEmpty
  | .obj kvs => !kvs.isEmpty

/-- Association-list lookup with a string key, the order Python's dict
preserves (keys assumed distinct). -/
def lookupJ (kvs : List (Json × Json)) (k : String) : Option Json :=
  match kvs with
  | [] => none
  | kv :: rest => if kv.1 = .str k then some kv.2 else lookupJ rest k

/-- Python `d.get(k, default)`: raises `AttributeError` when `d` is not a
dict; a key bound to JSON `null` yields Python `None`, which here is the
value `Json.null` itself (returned as-is, like Python does). -/
def Json.pyGetD (j : Json) (k : String) (d : Json) : Except MLError Json :=
  match j with
  | .obj kvs => .ok ((lookupJ kvs k).getD d)
  | _ => .error (.pyError "AttributeError: get")

/-- Python `d.get(k)` with no default, distinguishing Python `None`
(missing key, or key bound to JSON `null`) as `none`. -/
def Json.pyGetN (j : Json) (k : String) : Except MLError (Option Json) :=
  match j with
  | .obj kvs =>
      .ok (match lookupJ kvs k with
           | some .null => none
           | v => v)
  | _ => .error (.pyError "AttributeError: get")

/-- Python `a or b` where `a` is an optional JSON-decoded value
(`none` is Python `None`). -/
def pyOrJ (a b : Option Json) : Option Json :=
  match a with
  | some v => if v.truthy then some v else b
  | none => b

/-- Python `a or b` for an optional string. -/
def pyOrS (a b : Option String) : Option String :=
  match a with
  | some s => if s != "" then some s else b
  | none => b

/-- Python truthiness of an optional string (`if agent_name:`). -/
def pyTruthyS (o : Option String) : Bool :=
  match o with
  | some s => s != ""
  | none => false

/-- Model of `s.rstrip("/")`: remove every trailing slash. -/
def rstripSlash (s : String) : String :=
  ⟨(s.data.reverse.dropWhile (· = '/')).reverse⟩

/-- Model of `os.path.basename` on POSIX: the part after the last slash. -/
def basename (p : String) : String :=
  ⟨(p.data.reverse.takeWhile (· ≠ '/')).reverse⟩

/-- Model of `":" in api_key`. -/
def hasColon (s : String) : Bool :=
  s.data.contains ':'

/-- Model of `api_key.split(":", 1)` on a list of characters: split at the first
colon, when there is one. -/
def splitAtFirstColon : List Char → Option (List Char × List Char)
  | [] => none
  | c :: cs =>
      if c = ':' then some ([], cs)
      else
        match splitAtFirstColon cs with
        | some (l, r) => some (c :: l, r)
        | none => none

/-- Model of `api_key.split(":", 1)` on strings (defined only when a colon exists,
which `connect` checks first). -/
def splitFirst (s : String) : Option (String × String) :=
  match splitAtFirstColon s.data with
  | some (l, r) => some (⟨l⟩, ⟨r⟩)
  | none => none

/-- The `MLArenaClient.__init__` state: the credential halves, the base URL and
the last-submission session defaults (`src/mlarena/client.py`, lines
13-18). -/
structure MLArenaClient where
  key_id : String
  key_pass : String
  base_url : String
  last_agent_id : Option Json := none
  last_competition : Option String := none
  deriving Repr, DecidableEq

/-- The message of the malformed-`api_key` error in `connect`. -/
def invalidKeyMsg : String :=
  "Invalid api_key format. Expected " ++ sq ++ "key_id:key_pass" ++ sq ++ ". " ++
  "Get your keys from your Profile page on ML Arena."

/-- Model of `connect(api_key, base_url)` from `src/mlarena/__init__.py`. -/
def connect (api_key : String) (base_url : String := "https://ml-arena.com") :
    Except MLError MLArenaClient :=
  if api_key = "" || !hasColon api_key then
    .error (.authenticationError (.str invalidKeyMsg))
  else
    match splitFirst api_key with
    | some (key_id, key_pass) =>
        if key_id = "" || key_pass = "" then
          .error (.authenticationError (.str "Both key_id and key_pass must be non-empty."))
        else
          .ok { key_id := key_id, key_pass := key_pass,
                base_url := rstripSlash base_url }
    | none =>
        -- unreachable: `hasColon api_key` guarantees a colon exists
        .error (.pyError "unreachable")

/-- Model of `self._headers()["Authorization"]` (`src/mlarena/client.py`, line 21). -/
def authHeader (c : MLArenaClient) : String :=
  "Bearer " ++ c.key_id ++ ":" ++ c.key_pass

/-- Model of `self._url(path)` (`src/mlarena/client.py`, line 24). -/
def url (c : MLArenaClient) (path : String) : String :=
  c.base_url ++ "/api/sdk" ++ path

/-- Observable side effects of an operation, in order of occurrence. -/
inductive Event where
  | mkdtempE (dir : String)
  | writeFileE (path : String) (content : String)
  | openReadE (path : String) (handle : Nat)
  | closeE (handle : Nat)
  | rmtreeE (dir : String)
  | postE (u : String) (auth : String) (parts : List (String × Nat))
      (agent_name : Option String)
  | getE (u : String) (auth : Option String)
  deriving Repr, DecidableEq

/-- The oracle for everything outside the client: the filesystem
(`os.path.isfile`), `inspect.getsource`, the temporary-directory name
`tempfile.mkdtemp` hands out, and the network (`.error` is a transport-level
exception from `requests`, `.ok` a decoded response). -/
structure World where
  isFile : String → Bool
  getsource : Except Unit String
  tmpDir : String
  postResult : Except Unit Response
  getResult : Except Unit Response

/-- Model of `MLArenaClient._handle_response` (`src/mlarena/client.py`, lines
26-33). -/
def handle_response (resp : Response) : Except MLError Unit :=
  if resp.status_code = 401 then
    .error (.authenticationError (.str
      "Invalid API credentials. Check your key_id and key_pass."))
  else if resp.status_code = 403 then
    match resp.body.pyGetD "error" (.str "Access denied") with
    | .error e => .error e
    | .ok m => .error (.authenticationError m)
  else if resp.status_code = 404 then
    match resp.body.pyGetD "error" (.str "Not found") with
    | .error e => .error e
    | .ok m => .error (.competitionNotFoundError m)
  else
    .ok ()

/-- Model of `resp.raise_for_status()`: raises `requests.HTTPError` exactly for
4xx and 5xx status codes. -/
def raise_for_status (resp : Response) : Except MLError Unit :=
  if 400 ≤ resp.status_code && resp.status_code < 600 then
    .error (.httpError resp.status_code)
  else
    .ok ()

/-- The staging loop of `submit` over `files` (`src/mlarena/client.py`,
lines 69-73): check `os.path.isfile`, open each existing file (handles are
numbered in opening order starting from `h`) and record
`(basename, handle)` multipart entries; stop with `SubmissionError` at the
first missing path, keeping the handles already opened (the `finally`
block must still close them).  Returns `(events, multipart entries,
optional error)`. -/
def stageFiles (w : World) : List String → Nat →
    List Event × List (String × Nat) × Option MLError
  | [], _ => ([], [], none)
  | p :: ps, h =>
      if w.isFile p then
        let r := stageFiles w ps (h + 1)
        (Event.openReadE p h :: r.1, (basename p, h) :: r.2.1, r.2.2)
      else
        ([], [], some (.submissionError ("File not found: " ++ p)))

/-- The response-processing tail of `submit`, run after the multipart POST
returns (`src/mlarena/client.py`, lines 87-96): `_handle_response`, then the
success-status check raising `SubmissionError` with the server's `error`
field or raw body, then recording the session defaults and returning the
decoded body. -/
def submitHandle (c : MLArenaClient) (competition : String) (resp : Response) :
    Except MLError Json × MLArenaClient :=
  match handle_response resp with
  | .error e => (.error e, c)
  | .ok _ =>
      if !(resp.status_code = 200 || resp.status_code = 201 || resp.status_code = 202) then
        match resp.body.pyGetD "error" (.str resp.text) with
        | .error e => (.error e, c)
        | .ok m => (.error (.submissionError ("Submission failed: " ++ m.pyStr)), c)
      else
        match resp.body.pyGetN "agent_id" with
        | .error e => (.error e, c)
        | .ok aid =>
            (.ok resp.body,
             { c with last_agent_id := aid, last_competition := some competition })

/-- Model of `MLArenaClient.submit` (`src/mlarena/client.py`, lines 35-103).  The
`agent` argument is opaque (only `inspect.getsource`, supplied by the
world, looks at it); the `with open(tmp_path, "w")` block is the atomic
`writeFileE` event (the `with` statement closes that handle itself).
Returns the result, the updated client state and the event trace; the
`finally` block's closes and `shutil.rmtree` are the trace's tail on every
path that reaches the `try`. -/
def submit (c : MLArenaClient) (w : World) (competition : String)
    (agent : Option Unit := none) (files : Option (List String) := none)
    (agent_name : Option String := none) :
    Except MLError Json × MLArenaClient × List Event :=
  if agent.isNone && files.isNone then
    (.error (.submissionError "Provide either agent= (a class) or files= (list of paths)"),
     c, [])
  else if agent.isSome && files.isSome then
    (.error (.submissionError "Provide either agent= or files=, not both"), c, [])
  else
    -- the `try` block: stage the upload
    let staged : List Event × List (String × Nat) × Option String × Option MLError :=
      match agent with
      | some _ =>
          match w.getsource with
          | .error _ => ([], [], none, some (.pyError "inspect.getsource failed"))
          | .ok src =>
              let d := w.tmpDir
              ([Event.mkdtempE d, Event.writeFileE (d ++ "/agent.py") src,
                Event.openReadE (d ++ "/agent.py") 0],
               [("agent.py", 0)], some d, none)
      | none =>
          let r := stageFiles w (files.getD []) 0
          (r.1, r.2.1, none, r.2.2)
    let evs := staged.1
    let parts := staged.2.1
    let tmp_dir := staged.2.2.1
    let bodyErr := staged.2.2.2
    -- the `finally` block: close every staged handle, remove the tmp dir
    let finallyEvs : List Event :=
      parts.map (fun pr => Event.closeE pr.2) ++
      (match tmp_dir with
       | some d => [Event.rmtreeE d]
       | none => [])
    match bodyErr with
    | some e => (.error e, c, evs ++ finallyEvs)
    | none =>
        let dataName : Option String := if pyTruthyS agent_name then agent_name else none
        let postEv := Event.postE (url c ("/submit/" ++ competition)) (authHeader c)
          parts dataName
        match w.postResult with
        | .error _ =>
            (.error (.pyError "requests transport error"), c,
             evs ++ [postEv] ++ finallyEvs)
        | .ok resp =>
            ((submitHandle c competition resp).1, (submitHandle c competition resp).2,
             evs ++ [postEv] ++ finallyEvs)

/-- Model of `MLArenaClient.status` (`src/mlarena/client.py`, lines 105-126). -/
def status (c : MLArenaClient) (w : World) (agent_id : Option Json := none) :
    Except MLError Json × List Event :=
  match pyOrJ agent_id c.last_agent_id with
  | none => (.error (.submissionError "No agent_id provided and no previous submission found"), [])
  | some v =>
      let ev := Event.getE (url c ("/status/" ++ v.pyStr)) (some (authHeader c))
      match w.getResult with
      | .error _ => (.error (.pyError "requests transport error"), [ev])
      | .ok resp =>
          match handle_response resp with
          | .error e => (.error e, [ev])
          | .ok _ =>
              match raise_for_status resp with
              | .error e => (.error e, [ev])
              | .ok _ => (.ok resp.body, [ev])

/-- The result of `_to_dataframe`: a pandas dataframe built from the rows,
the plain rows when pandas is missing, or the input passed through
untouched. -/
inductive TabResult where
  | dataFrame (rows : List Json)
  | rowsList (rows : List Json)
  | passthrough (data : Json)
  deriving Repr, DecidableEq

/-- The logical content of a `TabResult`: the rows it holds, whatever the
container. -/
def TabResult.content : TabResult → Json
  | .dataFrame rows => .arr rows
  | .rowsList rows => .arr rows
  | .passthrough d => d

/-- The `try: import pandas ... except ImportError` tail of `_to_dataframe`. -/
def wrapRows (hasPandas : Bool) (rows : List Json) : TabResult :=
  if hasPandas then .dataFrame rows else .rowsList rows

/-- Model of `dict(zip(data["columns"], row))` for one row: Python's `zip` truncates
to the shorter list; iteration over a non-list JSON value is not
modelled. -/
def rowToDict (cols : Json) (row : Json) : Except MLError Json :=
  match cols, row with
  | .arr cs, .arr vs => .ok (.obj (cs.zip vs))
  | _, _ => .error (.pyError "zip over a non-list is not modelled")

/-- The list comprehension `[dict(zip(data["columns"], row)) for row in
data["data"]]`. -/
def mapRows (cols : Json) : List Json → Except MLError (List Json)
  | [] => .ok []
  | r :: rs =>
      match rowToDict cols r, mapRows cols rs with
      | .ok d, .ok ds => .ok (d :: ds)
      | .error e, _ => .error e
      | _, .error e => .error e

/-- Model of `_to_dataframe(data)` (`src/mlarena/client.py`, lines 170-183), with
pandas availability as an explicit parameter. -/
def to_dataframe (hasPandas : Bool) (data : Json) : Except MLError TabResult :=
  match data with
  | .obj kvs =>
      if (lookupJ kvs "columns").isSome && (lookupJ kvs "data").isSome then
        match lookupJ kvs "data" with
        | some (.arr rs) =>
            match mapRows ((lookupJ kvs "columns").getD .null) rs with
            | .error e => .error e
            | .ok rows => .ok (wrapRows hasPandas rows)
        | _ => .error (.pyError "iteration over a non-list is not modelled")
      else
        .ok (.passthrough data)
  | .arr xs => .ok (wrapRows hasPandas xs)
  | other => .ok (.passthrough other)

/-- Model of `MLArenaClient.leaderboard` (`src/mlarena/client.py`, lines 128-149). -/
def leaderboard (c : MLArenaClient) (w : World) (hasPandas : Bool)
    (competition : Option String := none) :
    Except MLError TabResult × List Event :=
  match pyOrS competition c.last_competition with
  | none =>
      (.error (.submissionError "No competition specified and no previous submission found"), [])
  | some comp =>
      let ev := Event.getE (url c ("/leaderboard/" ++ comp)) none
      match w.getResult with
      | .error _ => (.error (.pyError "requests transport error"), [ev])
      | .ok resp =>
          match handle_response resp with
          | .error e => (.error e, [ev])
          | .ok _ =>
              match raise_for_status resp with
              | .error e => (.error e, [ev])
              | .ok _ =>
                  match to_dataframe hasPandas resp.body with
                  | .error e => (.error e, [ev])
                  | .ok t => (.ok t, [ev])

/-- Model of `MLArenaClient.competitions` (`src/mlarena/client.py`, lines 151-164).
Note: unlike the other three operations it never calls
`_handle_response`, only `resp.raise_for_status()`. -/
def competitions (c : MLArenaClient) (w : World) (hasPandas : Bool) :
    Except MLError TabResult × List Event :=
  let ev := Event.getE (url c "/competitions") none
  match w.getResult with
  | .error _ => (.error (.pyError "requests transport error"), [ev])
  | .ok resp =>
      match raise_for_status resp with
      | .error e => (.error e, [ev])
      | .ok _ =>
          match to_dataframe hasPandas resp.body with
          | .error e => (.error e, [ev])
          | .ok t => (.ok t, [ev])

/-- Handles opened for staging, in order of the `openReadE` events. -/
def opensOf (evs : List Event) : List Nat :=
  evs.filterMap fun e =>
    match e with
    | .openReadE _ h => some h
    | _ => none

/-- Handles closed, in order of the `closeE` events. -/
def closesOf (evs : List Event) : List Nat :=
  evs.filterMap fun e =>
    match e with
    | .closeE h => some h
    | _ => none

/-- Temporary directories created, in order. -/
def tmpsMade (evs : List Event) : List String :=
  evs.filterMap fun e =>
    match e with
    | .mkdtempE d => some d
    | _ => none

/-- Temporary directories removed, in order. -/
def tmpsRemoved (evs : List Event) : List String :=
  evs.filterMap fun e =>
    match e with
    | .rmtreeE d => some d
    | _ => none

/-- Holds when the trace contains no network request. -/
def noNetwork (evs : List Event) : Bool :=
  evs.all fun e =>
    match e with
    | .postE _ _ _ _ => false
    | .getE _ _ => false
    | _ => true

/-- Whitespace trimming on both ends, on the character list. -/
def trimChars (l : List Char) : List Char :=
  ((l.dropWhile Char.isWhitespace).reverse.dropWhile Char.isWhitespace).reverse

/-- The base-URL normalization as the spec words it: lower-cased,
whitespace-trimmed, trailing slash removed.  Stated only to compare with
what `connect` actually stores. -/
def specNormalizeBase (s : String) : String :=
  rstripSlash ⟨(trimChars s.data).map Char.toLower⟩

/-! ### Helper lemmas -/

theorem splitAtFirstColon_append (l r : List Char) (h : ':' ∉ l) :
    splitAtFirstColon (l ++ ':' :: r) = some (l, r) := by
  induction l with
  | nil => simp [splitAtFirstColon]
  | cons c cs ih =>
      have hc : c ≠ ':' := fun he => h (he ▸ List.mem_cons_self c cs)
      have hcs : ':' ∉ cs := fun hm => h (List.mem_cons_of_mem c hm)
      simp [splitAtFirstColon, hc, ih hcs]

theorem colon_mem_of_splitAtFirstColon {l : List Char} {a b : List Char}
    (h : splitAtFirstColon l = some (a, b)) : ':' ∈ l := by
  induction l generalizing a b with
  | nil => simp [splitAtFirstColon] at h
  | cons c cs ih =>
      by_cases hc : c = ':'
      · exact hc ▸ List.mem_cons_self c cs
      · rw [splitAtFirstColon] at h
        simp only [hc, if_false] at h
        match hs : splitAtFirstColon cs with
        | some (l2, r2) =>
            exact List.mem_cons_of_mem c (ih hs)
        | none => rw [hs] at h; exact absurd h (by simp)

theorem data_append_colon (id pass : String) :
    (id ++ ":" ++ pass).data = id.data ++ ':' :: pass.data := by
  rw [String.data_append, String.data_append]
  simp [List.append_assoc]

theorem head?_dropWhile_not (p : Char → Bool) (l : List Char) (c : Char)
    (h : (l.dropWhile p).head? = some c) : p c = false := by
  induction l with
  | nil => simp [List.dropWhile] at h
  | cons x xs ih =>
      rw [List.dropWhile_cons] at h
      by_cases hp : p x
      · simp [hp] at h; exact ih h
      · simp [hp] at h; subst h; simpa using hp

theorem rstripSlash_data (s : String) :
    (rstripSlash s).data = (s.data.reverse.dropWhile (· = '/')).reverse := rfl

theorem rstripSlash_decomposition (s : String) :
    s.data = (rstripSlash s).data ++
      List.replicate (s.data.reverse.takeWhile (· = '/')).length '/' := by
  have hsplit := List.takeWhile_append_dropWhile (p := (· = '/')) (l := s.data.reverse)
  have hrep : s.data.reverse.takeWhile (· = '/') =
      List.replicate (s.data.reverse.takeWhile (· = '/')).length '/' := by
    refine List.eq_replicate_of_mem ?_
    intro b hb
    have := List.mem_takeWhile_imp hb
    simpa using this
  calc s.data = s.data.reverse.reverse := by rw [List.reverse_reverse]
    _ = (s.data.reverse.takeWhile (· = '/') ++ s.data.reverse.dropWhile (· = '/')).reverse := by
          rw [hsplit]
    _ = (s.data.reverse.dropWhile (· = '/')).reverse ++
          (s.data.reverse.takeWhile (· = '/')).reverse := by rw [List.reverse_append]
    _ = (rstripSlash s).data ++
          List.replicate (s.data.reverse.takeWhile (· = '/')).length '/' := by
          rw [rstripSlash_data]
          congr 1
          conv_lhs => rw [hrep]
          rw [List.reverse_replicate]

theorem rstripSlash_no_trailing (s : String) :
    (rstripSlash s).data.getLast? ≠ some '/' := by
  intro h
  rw [rstripSlash_data, List.getLast?_reverse] at h
  have := head?_dropWhile_not (· = '/') s.data.reverse '/' h
  simp at this

theorem hasColon_of_mem {s : String} (h : ':' ∈ s.data) : hasColon s = true :=
  List.elem_eq_true_of_mem h

theorem ne_empty_of_mem {s : String} (h : ':' ∈ s.data) : s ≠ "" := by
  intro he
  subst he
  simp at h

/-! ### Claim theorems -/

/-- Claim C6: an `api_key` that is empty, lacks a colon, or has an empty
half around the first colon makes `connect` raise `AuthenticationError`;
every well-formed `"id:pass"` key connects and stores the two halves
verbatim, splitting on the first colon only. -/
theorem connect_key_validation :
    (∀ u : String, connect "" u = .error (.authenticationError (.str invalidKeyMsg)))
    ∧ (∀ s u : String, hasColon s = false →
        connect s u = .error (.authenticationError (.str invalidKeyMsg)))
    ∧ (∀ s u ki kp : String, splitFirst s = some (ki, kp) → ki = "" ∨ kp = "" →
        connect s u =
          .error (.authenticationError (.str "Both key_id and key_pass must be non-empty.")))
    ∧ (∀ id pass u : String, ':' ∉ id.data → id ≠ "" → pass ≠ "" →
        connect (id ++ ":" ++ pass) u =
          .ok { key_id := id, key_pass := pass, base_url := rstripSlash u }) := by
  refine ⟨fun u => rfl, ?_, ?_, ?_⟩
  · intro s u h
    simp [connect, h]
  · intro s u ki kp hsp hor
    have hm : ':' ∈ s.data := by
      unfold splitFirst at hsp
      cases hq : splitAtFirstColon s.data with
      | none => rw [hq] at hsp; exact absurd hsp (by simp)
      | some lr => rw [hq] at hsp; exact colon_mem_of_splitAtFirstColon hq
    have hc := hasColon_of_mem hm
    have hne := ne_empty_of_mem hm
    rw [connect]
    simp only [hc, hne, Bool.not_true, Bool.or_false, decide_eq_true_eq, if_false,
      decide_eq_false hne]
    rw [hsp]
    rcases hor with h1 | h1 <;> simp [h1]
  · intro id pass u hnc hid hpass
    have hd := data_append_colon id pass
    have hm : ':' ∈ (id ++ ":" ++ pass).data := by
      rw [hd]; exact List.mem_append_right _ (List.mem_cons_self _ _)
    have hc := hasColon_of_mem hm
    have hne := ne_empty_of_mem hm
    rw [connect]
    simp only [hc, Bool.not_true, Bool.or_false, if_false, decide_eq_false hne]
    have hsp : splitFirst (id ++ ":" ++ pass) = some (id, pass) := by
      unfold splitFirst
      rw [hd, splitAtFirstColon_append id.data pass.data (by simpa using hnc)]
    rw [hsp]
    simp [hid, hpass]

/-- Witness for `connect_key_validation` at concrete keys. -/
theorem connect_key_validation_witness :
    connect "nocolon" "u" = .error (.authenticationError (.str invalidKeyMsg))
    ∧ connect ("id" ++ ":" ++ "pass") "https://ml-arena.com/" =
        .ok { key_id := "id", key_pass := "pass",
              base_url := rstripSlash "https://ml-arena.com/" } :=
  ⟨connect_key_validation.2.1 "nocolon" "u" (by decide),
   connect_key_validation.2.2.2 "id" "pass" "https://ml-arena.com/"
     (by decide) (by decide) (by decide)⟩

/-- Counterexample to claim C7: the stored base URL is neither lower-cased
nor whitespace-trimmed; `connect` only strips trailing slashes
(`base_url.rstrip("/")` in `src/mlarena/__init__.py`, line 31). -/
theorem connect_normalization_counterexample :
    (connect "id:pass" "HTTPS://ML-Arena.com/").map MLArenaClient.base_url =
      .ok "HTTPS://ML-Arena.com"
    ∧ "HTTPS://ML-Arena.com" ≠ specNormalizeBase "HTTPS://ML-Arena.com/" := by
  constructor
  · rfl
  · decide

/-- Claim C7 as amended: on success `connect` stores the `base_url`
argument with every trailing slash removed and no other change: the input
is the stored value followed by some run of slashes, and the stored value
does not end in a slash. -/
theorem connect_base_url_rstrip (api_key u : String) (c : MLArenaClient)
    (h : connect api_key u = .ok c) :
    c.base_url = rstripSlash u
    ∧ (∃ k, u.data = c.base_url.data ++ List.replicate k '/')
    ∧ c.base_url.data.getLast? ≠ some '/' := by
  have hb : c.base_url = rstripSlash u := by
    rw [connect] at h
    split at h
    · exact absurd h (by simp)
    · split at h
      · split at h
        · exact absurd h (by simp)
        · have h2 := Except.ok.inj h
          rw [← h2]
      · exact absurd h (by simp)
  refine ⟨hb, ⟨(u.data.reverse.takeWhile (· = '/')).length, ?_⟩, ?_⟩
  · rw [hb]; exact rstripSlash_decomposition u
  · rw [hb]; exact rstripSlash_no_trailing u

/-- What column-oriented conversion does to one row: pair the column
names with the row's values positionally (rows are lists under claim C5's
hypotheses, so the fall-through arm is never reached there). -/
def pairRow (cs : List Json) (r : Json) : Json :=
  match r with
  | .arr vs => .obj (cs.zip vs)
  | other => other

theorem mapRows_ok (cs : List Json) (rs : List Json)
    (h : ∀ r ∈ rs, ∃ vs, r = .arr vs) :
    mapRows (.arr cs) rs = .ok (rs.map (pairRow cs)) := by
  induction rs with
  | nil => rfl
  | cons r rest ih =>
      obtain ⟨vs, hvs⟩ := h r (List.mem_cons_self r rest)
      have hrest := ih (fun q hq => h q (List.mem_cons_of_mem r hq))
      subst hvs
      simp [mapRows, rowToDict, hrest, pairRow]

/-- Claim C5: tabular conversion is pure: a column-oriented value yields
one mapping per row pairing each column name with the row's value at the
same position; a row-oriented list is passed through unchanged; the
spec's worked example computes as stated; and pandas availability never
changes the logical content, only the container. -/
theorem to_dataframe_conversion :
    (∀ (hp : Bool) (kvs : List (Json × Json)) (cs rs : List Json),
        lookupJ kvs "columns" = some (.arr cs) →
        lookupJ kvs "data" = some (.arr rs) →
        (∀ r ∈ rs, ∃ vs, r = .arr vs) →
        to_dataframe hp (.obj kvs) = .ok (wrapRows hp (rs.map (pairRow cs))))
    ∧ (∀ (hp : Bool) (xs : List Json), to_dataframe hp (.arr xs) = .ok (wrapRows hp xs))
    ∧ (to_dataframe false (.obj [(.str "columns", .arr [.str "name", .str "score"]),
          (.str "data", .arr [.arr [.str "x", .num 1], .arr [.str "y", .num 2]])]) =
        .ok (.rowsList [.obj [(.str "name", .str "x"), (.str "score", .num 1)],
                        .obj [(.str "name", .str "y"), (.str "score", .num 2)]]))
    ∧ (∀ (hp hp2 : Bool) (d : Json), (to_dataframe hp d).map TabResult.content =
        (to_dataframe hp2 d).map TabResult.content) := by
  refine ⟨?_, ?_, by rfl, ?_⟩
  · intro hp kvs cs rs hc hd hrows
    simp [to_dataframe, hc, hd, mapRows_ok cs rs hrows]
  · intro hp xs
    rfl
  · intro hp hp2 d
    cases d with
    | obj kvs =>
        simp only [to_dataframe]
        split
        · split <;> try rfl
          · rename_i rs _
            cases hm : mapRows ((lookupJ kvs "columns").getD .null) rs <;>
              cases hp <;> cases hp2 <;> simp [wrapRows, TabResult.content, Except.map]
        · rfl
    | arr xs =>
        cases hp <;> cases hp2 <;>
          simp [to_dataframe, wrapRows, TabResult.content, Except.map]
    | null => rfl
    | bool b => rfl
    | num n => rfl
    | str s => rfl

/-- Witness for `to_dataframe_conversion` at the spec's worked example
with pandas present. -/
theorem to_dataframe_conversion_witness :
    to_dataframe true (.obj [(.str "columns", .arr [.str "name", .str "score"]),
        (.str "data", .arr [.arr [.str "x", .num 1], .arr [.str "y", .num 2]])]) =
      .ok (.dataFrame [.obj [(.str "name", .str "x"), (.str "score", .num 1)],
                       .obj [(.str "name", .str "y"), (.str "score", .num 2)]]) := by
  have h := to_dataframe_conversion.1 true
    [(.str "columns", .arr [.str "name", .str "score"]),
     (.str "data", .arr [.arr [.str "x", .num 1], .arr [.str "y", .num 2]])]
    [.str "name", .str "score"] [.arr [.str "x", .num 1], .arr [.str "y", .num 2]]
    (by rfl) (by rfl)
    (by intro r hr
        simp only [List.mem_cons, List.not_mem_nil, or_false] at hr
        rcases hr with h1 | h1
        · exact ⟨[.str "x", .num 1], h1⟩
        · exact ⟨[.str "y", .num 2], h1⟩)
  simpa [wrapRows, pairRow] using h

/-- Witness for `connect_base_url_rstrip` at a concrete connection. -/
theorem connect_base_url_rstrip_witness :
    (connect "id:pass" "HTTPS://ML-Arena.com/" =
      .ok { key_id := "id", key_pass := "pass", base_url := "HTTPS://ML-Arena.com" })
    ∧ ("HTTPS://ML-Arena.com" : String) = rstripSlash "HTTPS://ML-Arena.com/" := by
  refine ⟨by rfl, ?_⟩
  have h := connect_base_url_rstrip "id:pass" "HTTPS://ML-Arena.com/"
    { key_id := "id", key_pass := "pass", base_url := "HTTPS://ML-Arena.com" } (by rfl)
  exact h.1

/-- A concrete connected client, for closed statements. -/
def mockClient : MLArenaClient :=
  { key_id := "id", key_pass := "pw", base_url := "https://ml-arena.com" }

/-- The mocked 404 response of claim C2: body `{"error": "no such comp"}`. -/
def notFoundResp : Response :=
  { status_code := 404, body := .obj [(.str "error", .str "no such comp")],
    text := "resp" }

/-- A world whose server always answers with `notFoundResp`. -/
def notFoundWorld : World :=
  { isFile := fun _ => true, getsource := .ok "class Agent: pass",
    tmpDir := "/tmp/sub", postResult := .ok notFoundResp,
    getResult := .ok notFoundResp }

/-- Counterexample to claim C2: `competitions` never calls
`_handle_response` (`src/mlarena/client.py`, lines 151-164), so the mocked
404 surfaces as `requests.HTTPError` from `raise_for_status`, not as
`CompetitionNotFoundError`. -/
theorem competitions_404_counterexample :
    (competitions mockClient notFoundWorld false).1 = .error (.httpError 404)
    ∧ (competitions mockClient notFoundWorld false).1 ≠
        .error (.competitionNotFoundError (.str "no such comp")) :=
  ⟨rfl, fun h => MLError.noConfusion (Except.error.inj h)⟩

/-- Claim C2 as amended: on the mocked HTTP 404 with body
`{"error": "no such comp"}`, `submit`, `status` and `leaderboard` raise
`CompetitionNotFoundError("no such comp")`; `competitions` instead raises
the transport library's generic HTTP error. -/
theorem operations_404_mapping :
    ∀ (c : MLArenaClient) (hp : Bool),
      (submit c notFoundWorld "comp1" none (some []) none).1 =
        .error (.competitionNotFoundError (.str "no such comp"))
      ∧ (status c notFoundWorld (some (.str "A1"))).1 =
        .error (.competitionNotFoundError (.str "no such comp"))
      ∧ (leaderboard c notFoundWorld hp (some "comp1")).1 =
        .error (.competitionNotFoundError (.str "no such comp"))
      ∧ (competitions c notFoundWorld hp).1 = .error (.httpError 404) :=
  fun _ _ => ⟨rfl, rfl, rfl, rfl⟩

/-- Claim C9: `submit(competition, files=[])` passes the argument check:
the trace is exactly one multipart POST with zero file parts (so no
`SubmissionError` is raised before the network call), and the outcome is
whatever the response handling yields. -/
theorem submit_empty_files_posts :
    ∀ (c : MLArenaClient) (w : World) (comp : String) (name : Option String),
      (submit c w comp none (some []) name).2.2 =
        [Event.postE (url c ("/submit/" ++ comp)) (authHeader c) []
          (if pyTruthyS name then name else none)]
      ∧ (∀ resp : Response, w.postResult = .ok resp →
          (submit c w comp none (some []) name).1 = (submitHandle c comp resp).1
          ∧ (submit c w comp none (some []) name).2.1 = (submitHandle c comp resp).2) := by
  intro c w comp name
  constructor
  · cases hp : w.postResult <;> simp [submit, stageFiles, hp]
  · intro resp hr
    constructor <;> simp [submit, stageFiles, hr]

/-- Witness for `submit_empty_files_posts`: a concrete empty-list submit
against the 404 world issues the POST and reaches response handling. -/
theorem submit_empty_files_posts_witness :
    (submit mockClient notFoundWorld "comp1" none (some []) none).2.2 =
      [Event.postE (url mockClient "/submit/comp1") (authHeader mockClient) [] none]
    ∧ (submit mockClient notFoundWorld "comp1" none (some []) none).1 =
        (submitHandle mockClient "comp1" notFoundResp).1 := by
  have h := submit_empty_files_posts mockClient notFoundWorld "comp1" none
  exact ⟨h.1, (h.2 notFoundResp rfl).1⟩

theorem stageFiles_events (w : World) (fs : List String) (h : Nat) :
    opensOf (stageFiles w fs h).1 = (stageFiles w fs h).2.1.map Prod.snd
    ∧ closesOf (stageFiles w fs h).1 = []
    ∧ tmpsMade (stageFiles w fs h).1 = []
    ∧ tmpsRemoved (stageFiles w fs h).1 = []
    ∧ noNetwork (stageFiles w fs h).1 = true := by
  induction fs generalizing h with
  | nil => exact ⟨rfl, rfl, rfl, rfl, rfl⟩
  | cons p ps ih =>
      by_cases hf : w.isFile p = true
      · have := ih (h + 1)
        simp [stageFiles, hf, opensOf, closesOf, tmpsMade, tmpsRemoved, noNetwork] at this ⊢
        exact this
      · simp only [Bool.not_eq_true] at hf
        simp [stageFiles, hf, opensOf, closesOf, tmpsMade, tmpsRemoved, noNetwork]

theorem stageFiles_missing (w : World) (pre : List String) (p : String)
    (post : List String) (h : Nat) (hpre : ∀ q ∈ pre, w.isFile q = true)
    (hp : w.isFile p = false) :
    (stageFiles w (pre ++ p :: post) h).2.2 =
      some (.submissionError ("File not found: " ++ p)) := by
  induction pre generalizing h with
  | nil => simp [stageFiles, hp]
  | cons q qs ih =>
      have hq := hpre q (List.mem_cons_self q qs)
      have hqs := ih (h + 1) (fun x hx => hpre x (List.mem_cons_of_mem q hx))
      simp [stageFiles, hq, hqs]

theorem closeEvs_events (parts : List (String × Nat)) :
    closesOf (parts.map fun pr => Event.closeE pr.2) = parts.map Prod.snd
    ∧ opensOf (parts.map fun pr => Event.closeE pr.2) = []
    ∧ tmpsMade (parts.map fun pr => Event.closeE pr.2) = []
    ∧ tmpsRemoved (parts.map fun pr => Event.closeE pr.2) = []
    ∧ noNetwork (parts.map fun pr => Event.closeE pr.2) = true := by
  induction parts with
  | nil => exact ⟨rfl, rfl, rfl, rfl, rfl⟩
  | cons pr rest ih =>
      simp [opensOf, closesOf, tmpsMade, tmpsRemoved, noNetwork] at ih ⊢
      exact ih

/-- Claim C4: submitting with both `agent` and `files`, or with neither,
raises `SubmissionError` with no side effect at all; a `files` list whose
first missing path is `p` raises `SubmissionError` naming `p`, with no
network request in the trace. -/
theorem submit_argument_validation :
    (∀ (c : MLArenaClient) (w : World) (comp : String) (name : Option String),
        submit c w comp none none name =
          (.error (.submissionError "Provide either agent= (a class) or files= (list of paths)"),
           c, []))
    ∧ (∀ (c : MLArenaClient) (w : World) (comp : String) (a : Unit)
          (fs : List String) (name : Option String),
        submit c w comp (some a) (some fs) name =
          (.error (.submissionError "Provide either agent= or files=, not both"), c, []))
    ∧ (∀ (c : MLArenaClient) (w : World) (comp : String) (name : Option String)
          (pre : List String) (p : String) (post : List String),
        (∀ q ∈ pre, w.isFile q = true) → w.isFile p = false →
        (submit c w comp none (some (pre ++ p :: post)) name).1 =
          .error (.submissionError ("File not found: " ++ p))
        ∧ noNetwork (submit c w comp none (some (pre ++ p :: post)) name).2.2 = true) := by
  refine ⟨fun c w comp name => rfl, fun c w comp a fs name => rfl, ?_⟩
  intro c w comp name pre p post hpre hp
  have hmiss := stageFiles_missing w pre p post 0 hpre hp
  have hstage := stageFiles_events w (pre ++ p :: post) 0
  have hclose := closeEvs_events (stageFiles w (pre ++ p :: post) 0).2.1
  constructor
  · simp [submit, hmiss]
  · simp [submit, hmiss, noNetwork, List.all_append]
    have h1 := hstage.2.2.2.2
    have h2 := hclose.2.2.2.2
    simp [noNetwork] at h1 h2
    exact ⟨h1, h2⟩

/-- Witness for `submit_argument_validation`: a concrete missing file. -/
theorem submit_argument_validation_witness :
    (submit mockClient notFoundWorld "comp1" none none none =
      (.error (.submissionError "Provide either agent= (a class) or files= (list of paths)"),
       mockClient, []))
    ∧ (submit mockClient
          { notFoundWorld with isFile := fun p => p ≠ "missing.py" } "comp1"
          none (some ["agent.py", "missing.py"]) none).1 =
        .error (.submissionError ("File not found: " ++ "missing.py")) := by
  refine ⟨submit_argument_validation.1 mockClient notFoundWorld "comp1" none, ?_⟩
  exact (submit_argument_validation.2.2 mockClient
    { notFoundWorld with isFile := fun p => p ≠ "missing.py" } "comp1" none
    ["agent.py"] "missing.py" [] (by intro q hq; simp at hq; subst hq; decide)
    (by decide)).1

/-- Claim C8: on every exit path of `submit` — argument errors, a source
extraction failure, a missing file, a transport error, a mapped HTTP
error or success — the handles closed are exactly the handles opened for
staging (each one closed exactly once, nothing else closed) and the
temporary directories removed are exactly those created. -/
theorem submit_releases_resources :
    ∀ (c : MLArenaClient) (w : World) (comp : String) (agent : Option Unit)
      (files : Option (List String)) (name : Option String),
      closesOf (submit c w comp agent files name).2.2 =
        opensOf (submit c w comp agent files name).2.2
      ∧ tmpsRemoved (submit c w comp agent files name).2.2 =
        tmpsMade (submit c w comp agent files name).2.2 := by
  intro c w comp agent files name
  cases agent with
  | some a =>
      cases files with
      | some fs => exact ⟨rfl, rfl⟩
      | none =>
          cases hg : w.getsource with
          | error e => simp [submit, hg, opensOf, closesOf, tmpsMade, tmpsRemoved]
          | ok src =>
              cases hpost : w.postResult <;>
                simp [submit, hg, hpost, opensOf, closesOf, tmpsMade, tmpsRemoved]
  | none =>
      cases files with
      | none => exact ⟨rfl, rfl⟩
      | some fs =>
          have hs := stageFiles_events w fs 0
          have hc := closeEvs_events (stageFiles w fs 0).2.1
          simp only [opensOf, closesOf, tmpsMade, tmpsRemoved, List.filterMap_map] at hs hc
          cases hb : (stageFiles w fs 0).2.2 with
          | some e =>
              constructor <;>
                simp [submit, hb, closesOf, opensOf, tmpsMade, tmpsRemoved,
                  List.filterMap_append, List.filterMap_map, hs.1, hs.2.1, hs.2.2.1,
                  hs.2.2.2.1, hc.1, hc.2.1, hc.2.2.1, hc.2.2.2.1]
          | none =>
              cases hpost : w.postResult with
              | error e =>
                  constructor <;>
                    simp [submit, hb, hpost, closesOf, opensOf, tmpsMade, tmpsRemoved,
                      List.filterMap_append, List.filterMap_map, hs.1, hs.2.1, hs.2.2.1,
                      hs.2.2.2.1, hc.1, hc.2.1, hc.2.2.1, hc.2.2.2.1]
              | ok resp =>
                  constructor <;>
                    simp [submit, hb, hpost, closesOf, opensOf, tmpsMade, tmpsRemoved,
                      List.filterMap_append, List.filterMap_map, hs.1, hs.2.1, hs.2.2.1,
                      hs.2.2.2.1, hc.1, hc.2.1, hc.2.2.1, hc.2.2.2.1]

theorem stageFiles_all_ok (w : World) (fs : List String) (h : Nat)
    (hall : ∀ p ∈ fs, w.isFile p = true) :
    (stageFiles w fs h).2.2 = none := by
  induction fs generalizing h with
  | nil => rfl
  | cons p ps ih =>
      have hp := hall p (List.mem_cons_self p ps)
      have hps := ih (h + 1) (fun q hq => hall q (List.mem_cons_of_mem p hq))
      simp [stageFiles, hp, hps]

theorem submit_files_reaches_handler (c : MLArenaClient) (w : World)
    (comp : String) (fs : List String) (name : Option String) (resp : Response)
    (hall : ∀ p ∈ fs, w.isFile p = true) (hr : w.postResult = .ok resp) :
    (submit c w comp none (some fs) name).1 = (submitHandle c comp resp).1
    ∧ (submit c w comp none (some fs) name).2.1 = (submitHandle c comp resp).2 := by
  have hok := stageFiles_all_ok w fs 0 hall
  constructor <;> simp [submit, hok, hr]

theorem status_events (c : MLArenaClient) (w : World) (a : Option Json) (v : Json)
    (hv : pyOrJ a c.last_agent_id = some v) :
    (status c w a).2 =
      [Event.getE (url c ("/status/" ++ v.pyStr)) (some (authHeader c))] := by
  cases hg : w.getResult with
  | error e => simp [status, hv, hg]
  | ok resp =>
      cases hh : handle_response resp with
      | error e => simp [status, hv, hg, hh]
      | ok u => cases hrs : raise_for_status resp <;> simp [status, hv, hg, hh, hrs]

theorem leaderboard_events (c : MLArenaClient) (w : World) (hp : Bool)
    (a : Option String) (comp : String) (hv : pyOrS a c.last_competition = some comp) :
    (leaderboard c w hp a).2 =
      [Event.getE (url c ("/leaderboard/" ++ comp)) none] := by
  cases hg : w.getResult with
  | error e => simp [leaderboard, hv, hg]
  | ok resp =>
      cases hh : handle_response resp with
      | error e => simp [leaderboard, hv, hg, hh]
      | ok u =>
          cases hrs : raise_for_status resp with
          | error e => simp [leaderboard, hv, hg, hh, hrs]
          | ok u2 =>
              cases ht : to_dataframe hp resp.body <;>
                simp [leaderboard, hv, hg, hh, hrs, ht]

theorem status_no_default (c : MLArenaClient) (w : World)
    (h : c.last_agent_id = none) :
    (status c w none).1 =
      .error (.submissionError "No agent_id provided and no previous submission found") := by
  simp [status, pyOrJ, h]

theorem leaderboard_no_default (c : MLArenaClient) (w : World) (hp : Bool)
    (h : c.last_competition = none) :
    (leaderboard c w hp none).1 =
      .error (.submissionError "No competition specified and no previous submission found") := by
  simp [leaderboard, pyOrS, h]

/-- Claim C1: after the multipart POST of `submit` returns, HTTP 401 maps
to `AuthenticationError` (fixed message), 403 to `AuthenticationError`
with the server's message, 404 to `CompetitionNotFoundError` with the
server's message, any other status outside {200, 201, 202} to
`SubmissionError` carrying the server's `error` field when present and
the raw body text otherwise, and a status in {200, 201, 202} returns the
full decoded body; `submit` over existing files hands the response to
exactly this handler. -/
theorem submit_response_mapping :
    ∀ (c : MLArenaClient) (comp : String) (resp : Response),
      (resp.status_code = 401 →
        submitHandle c comp resp =
          (.error (.authenticationError
            (.str "Invalid API credentials. Check your key_id and key_pass.")), c))
      ∧ (∀ (kvs : List (Json × Json)) (m : Json),
          resp.status_code = 403 → resp.body = .obj kvs →
          lookupJ kvs "error" = some m →
          submitHandle c comp resp = (.error (.authenticationError m), c))
      ∧ (∀ (kvs : List (Json × Json)) (m : Json),
          resp.status_code = 404 → resp.body = .obj kvs →
          lookupJ kvs "error" = some m →
          submitHandle c comp resp = (.error (.competitionNotFoundError m), c))
      ∧ (∀ kvs : List (Json × Json),
          resp.status_code ≠ 200 → resp.status_code ≠ 201 → resp.status_code ≠ 202 →
          resp.status_code ≠ 401 → resp.status_code ≠ 403 → resp.status_code ≠ 404 →
          resp.body = .obj kvs →
          (∀ m : Json, lookupJ kvs "error" = some m →
              submitHandle c comp resp =
                (.error (.submissionError ("Submission failed: " ++ m.pyStr)), c))
          ∧ (lookupJ kvs "error" = none →
              submitHandle c comp resp =
                (.error (.submissionError ("Submission failed: " ++ resp.text)), c)))
      ∧ (∀ kvs : List (Json × Json),
          (resp.status_code = 200 ∨ resp.status_code = 201 ∨ resp.status_code = 202) →
          resp.body = .obj kvs → (submitHandle c comp resp).1 = .ok resp.body)
      ∧ (∀ (w : World) (fs : List String) (name : Option String),
          (∀ p ∈ fs, w.isFile p = true) → w.postResult = .ok resp →
          (submit c w comp none (some fs) name).1 = (submitHandle c comp resp).1) := by
  intro c comp resp
  refine ⟨?_, ?_, ?_, ?_, ?_, ?_⟩
  · intro h
    simp [submitHandle, handle_response, h]
  · intro kvs m h hb hl
    simp [submitHandle, handle_response, h, hb, Json.pyGetD, hl]
  · intro kvs m h hb hl
    simp [submitHandle, handle_response, h, hb, Json.pyGetD, hl]
  · intro kvs h200 h201 h202 h401 h403 h404 hb
    constructor
    · intro m hl
      simp [submitHandle, handle_response, h200, h201, h202, h401, h403, h404,
        hb, Json.pyGetD, hl]
    · intro hl
      simp [submitHandle, handle_response, h200, h201, h202, h401, h403, h404,
        hb, Json.pyGetD, hl, Json.pyStr]
  · intro kvs hst hb
    rcases hst with h | h | h <;>
      simp [submitHandle, handle_response, h, hb, Json.pyGetN]
  · intro w fs name hall hr
    exact (submit_files_reaches_handler c w comp fs name resp hall hr).1

/-- Witness for `submit_response_mapping` at the mocked 404 response. -/
theorem submit_response_mapping_witness :
    submitHandle mockClient "comp1" notFoundResp =
      (.error (.competitionNotFoundError (.str "no such comp")), mockClient) :=
  (submit_response_mapping mockClient "comp1" notFoundResp).2.2.1
    [(.str "error", .str "no such comp")] (.str "no such comp") rfl rfl rfl

/-- A successful submission response carrying an agent id. -/
def okResp : Response :=
  { status_code := 201,
    body := .obj [(.str "agent_id", .str "A1"), (.str "status", .str "queued")],
    text := "r" }

/-- A world whose server accepts the submission with `okResp`. -/
def okWorld : World :=
  { notFoundWorld with postResult := .ok okResp, getResult := .ok okResp }

/-- A successful submission response with no `agent_id` key. -/
def noIdResp : Response :=
  { status_code := 200, body := .obj [(.str "status", .str "queued")], text := "r" }

/-- A world whose server accepts the submission with `noIdResp`. -/
def noIdWorld : World :=
  { notFoundWorld with postResult := .ok noIdResp, getResult := .ok noIdResp }

/-- Claim C3: a successful `submit` records the returned agent identifier
and the competition as session defaults; a later `status()` with no
argument targets that identifier and a later `leaderboard()` with no
argument targets that competition; with no prior successful submission
either no-argument call raises `SubmissionError`. -/
theorem submit_records_session_defaults :
    ∀ (c : MLArenaClient) (w : World) (comp : String) (fs : List String)
      (resp : Response) (kvs : List (Json × Json)) (aid : String)
      (name : Option String),
      (∀ p ∈ fs, w.isFile p = true) →
      w.postResult = .ok resp →
      (resp.status_code = 200 ∨ resp.status_code = 201 ∨ resp.status_code = 202) →
      resp.body = .obj kvs →
      lookupJ kvs "agent_id" = some (.str aid) →
      (submit c w comp none (some fs) name).1 = .ok resp.body
      ∧ (submit c w comp none (some fs) name).2.1.last_agent_id = some (.str aid)
      ∧ (submit c w comp none (some fs) name).2.1.last_competition = some comp
      ∧ (∀ w2 : World,
          (status (submit c w comp none (some fs) name).2.1 w2 none).2 =
            [Event.getE (url (submit c w comp none (some fs) name).2.1 ("/status/" ++ aid))
              (some (authHeader (submit c w comp none (some fs) name).2.1))])
      ∧ (∀ (w2 : World) (hp : Bool),
          (leaderboard (submit c w comp none (some fs) name).2.1 w2 hp none).2 =
            [Event.getE (url (submit c w comp none (some fs) name).2.1
              ("/leaderboard/" ++ comp)) none])
      ∧ (∀ (c0 : MLArenaClient) (w2 : World), c0.last_agent_id = none →
          (status c0 w2 none).1 =
            .error (.submissionError "No agent_id provided and no previous submission found"))
      ∧ (∀ (c0 : MLArenaClient) (w2 : World) (hp : Bool), c0.last_competition = none →
          (leaderboard c0 w2 hp none).1 =
            .error (.submissionError "No competition specified and no previous submission found")) := by
  intro c w comp fs resp kvs aid name hall hr hst hb hl
  obtain ⟨h1, h2⟩ := submit_files_reaches_handler c w comp fs name resp hall hr
  have hh : submitHandle c comp resp =
      (.ok resp.body,
       { c with last_agent_id := some (.str aid), last_competition := some comp }) := by
    rcases hst with h | h | h <;>
      simp [submitHandle, handle_response, h, hb, Json.pyGetN, hl]
  refine ⟨?_, ?_, ?_, ?_, ?_, ?_, ?_⟩
  · rw [h1, hh]
  · rw [h2, hh]
  · rw [h2, hh]
  · intro w2
    rw [h2, hh]
    exact status_events _ w2 none (.str aid) rfl
  · intro w2 hp
    rw [h2, hh]
    exact leaderboard_events _ w2 hp none comp rfl
  · intro c0 w2 h0
    exact status_no_default c0 w2 h0
  · intro c0 w2 hp h0
    exact leaderboard_no_default c0 w2 hp h0

/-- Witness for `submit_records_session_defaults`: a concrete accepted
submission stores `"A1"` and `"comp1"` and the follow-up `status()` hits
`/status/A1`. -/
theorem submit_records_session_defaults_witness :
    (submit mockClient okWorld "comp1" none (some []) none).1 = .ok okResp.body
    ∧ (submit mockClient okWorld "comp1" none (some []) none).2.1.last_agent_id =
        some (.str "A1")
    ∧ (submit mockClient okWorld "comp1" none (some []) none).2.1.last_competition =
        some "comp1"
    ∧ (∀ w2 : World,
        (status (submit mockClient okWorld "comp1" none (some []) none).2.1 w2 none).2 =
          [Event.getE (url (submit mockClient okWorld "comp1" none (some []) none).2.1
            "/status/A1")
            (some (authHeader (submit mockClient okWorld "comp1" none (some []) none).2.1))]) := by
  have h := submit_records_session_defaults mockClient okWorld "comp1" [] okResp
    [(.str "agent_id", .str "A1"), (.str "status", .str "queued")] "A1" none
    (by intro p hp; simp at hp) rfl (Or.inr (Or.inl rfl)) rfl rfl
  exact ⟨h.1, h.2.1, h.2.2.1, h.2.2.2.1⟩

/-- Claim C10: a successful `submit` whose decoded body has no
`agent_id` key sets the last-agent-id default to `None`, discarding any
earlier value, so a following no-argument `status()` raises
`SubmissionError`; the last-competition default is still updated. -/
theorem submit_missing_agent_id_clears_default :
    ∀ (c : MLArenaClient) (w : World) (comp : String) (fs : List String)
      (resp : Response) (kvs : List (Json × Json)) (name : Option String),
      (∀ p ∈ fs, w.isFile p = true) →
      w.postResult = .ok resp →
      (resp.status_code = 200 ∨ resp.status_code = 201 ∨ resp.status_code = 202) →
      resp.body = .obj kvs →
      lookupJ kvs "agent_id" = none →
      (submit c w comp none (some fs) name).1 = .ok resp.body
      ∧ (submit c w comp none (some fs) name).2.1.last_agent_id = none
      ∧ (submit c w comp none (some fs) name).2.1.last_competition = some comp
      ∧ (∀ w2 : World,
          (status (submit c w comp none (some fs) name).2.1 w2 none).1 =
            .error (.submissionError "No agent_id provided and no previous submission found")) := by
  intro c w comp fs resp kvs name hall hr hst hb hl
  obtain ⟨h1, h2⟩ := submit_files_reaches_handler c w comp fs name resp hall hr
  have hh : submitHandle c comp resp =
      (.ok resp.body,
       { c with last_agent_id := none, last_competition := some comp }) := by
    rcases hst with h | h | h <;>
      simp [submitHandle, handle_response, h, hb, Json.pyGetN, hl]
  refine ⟨?_, ?_, ?_, ?_⟩
  · rw [h1, hh]
  · rw [h2, hh]
  · rw [h2, hh]
  · intro w2
    rw [h2, hh]
    exact status_no_default _ w2 rfl

/-- Witness for `submit_missing_agent_id_clears_default`: a client with a
stale identifier loses it on the id-less success and the next `status()`
fails. -/
theorem submit_missing_agent_id_clears_default_witness :
    (submit { mockClient with last_agent_id := some (.str "OLD") } noIdWorld
        "comp1" none (some []) none).2.1.last_agent_id = none
    ∧ (∀ w2 : World,
        (status (submit { mockClient with last_agent_id := some (.str "OLD") } noIdWorld
            "comp1" none (some []) none).2.1 w2 none).1 =
          .error (.submissionError "No agent_id provided and no previous submission found")) := by
  have h := submit_missing_agent_id_clears_default
    { mockClient with last_agent_id := some (.str "OLD") } noIdWorld "comp1" []
    noIdResp [(.str "status", .str "queued")] none
    (by intro p hp; simp at hp) rfl (Or.inl rfl) rfl rfl
  exact ⟨h.2.1, h.2.2.2⟩

end MLArena
